import Mathlib

/-!
Verification of the ConversationRelay voice-assistant relay (src/index.js).

The embedding models the WebSocket session protocol engine:
the global `sessions` Map (Conversation Store), the per-connection
`ws.callSid` attribute, the message handler (setup / prompt / interrupt
branches), the close handler, and `generateAIResponse` in both its
streaming (USE_STREAMING = true) and non-streaming branches.

JavaScript effects are made explicit:
an exception thrown by the handler becomes an `err` field (`JsError`);
messages written to the socket become a `sent` list of `OutMsg`;
the in-place mutation performed by `conversation.push` is modelled by
updating the store entry that holds that array.
-/

namespace ConversationRelay

/-- Message roles, as the string role field of the JS message objects. -/
inductive Role where
  | system
  | user
  | assistant
  deriving DecidableEq, Repr

/-- A conversation message: JS object of shape role/content. -/
structure Message where
  role : Role
  content : String
  deriving DecidableEq, Repr

/-- SYSTEM_PROMPT constant from src/index.js line 37. -/
def SYSTEM_PROMPT : String :=
  "You are a helpful voice assistant. Speak naturally, avoid emojis and special characters."

/-- The fixed system message seeded at setup: role system, content SYSTEM_PROMPT. -/
def systemMessage : Message := Message.mk Role.system SYSTEM_PROMPT

/-- Outbound transport message, JS object of shape type/token/last sent by ws.send. -/
structure OutMsg where
  type : String
  token : String
  last : Bool
  deriving DecidableEq, Repr

/-- The `sessions` Map: call identifier to conversation array.
Modelled as an association list with Map semantics (set replaces, get looks up,
delete removes). -/
abbrev Store := List (String × List Message)

/-- Map.get: lookup by key, undefined (none) when absent. -/
def Store.get : Store → String → Option (List Message)
  | [], _ => none
  | (k, v) :: rest, sid => if k = sid then some v else Store.get rest sid

/-- Map.set: replace the entry when present, append a new one otherwise. -/
def Store.set : Store → String → List Message → Store
  | [], sid, conv => [(sid, conv)]
  | (k, v) :: rest, sid, conv =>
    if k = sid then (sid, conv) :: rest else (k, v) :: Store.set rest sid conv

/-- Map.delete: remove the entry for the key, no-op when absent. -/
def Store.delete : Store → String → Store
  | [], _ => []
  | (k, v) :: rest, sid =>
    if k = sid then Store.delete rest sid else (k, v) :: Store.delete rest sid

/-- A JavaScript exception escaping the async message handler:
typeError is the TypeError from `conversation.push` on undefined,
backendError is any failure thrown by the OpenAI client. -/
inductive JsError where
  | typeError
  | backendError
  deriving DecidableEq, Repr

/-- One observed behavior of the OpenAI backend for a single call of
generateAIResponse, together with the USE_STREAMING configuration:
streaming chunks fails — USE_STREAMING is true, the stream yields chunks
  (each the optional chunk.choices[0]?.delta?.content) and then, when fails
  is true, raises instead of ending normally;
batch result — USE_STREAMING is false, the completion call returns the
  content (some response) or throws (none). -/
inductive Backend where
  | streaming (chunks : List (Option String)) (fails : Bool)
  | batch (result : Option String)
  deriving DecidableEq, Repr

/-- The `for await` loop of the streaming branch (src/index.js lines 158-168):
for each chunk, content := chunk.choices[0]?.delta?.content || ""; when content
is non-empty, send the token with last = false and push it onto responseTokens.
Returns (messages sent by the loop, responseTokens), both in loop order. -/
def processChunks : List (Option String) → List OutMsg × List String
  | [] => ([], [])
  | c :: rest =>
    let content := Option.getD c ""
    let r := processChunks rest
    if content = "" then r
    else (OutMsg.mk "text" content false :: r.1, content :: r.2)

/-- JS `responseTokens.join("")`: concatenation with empty separator. -/
def joinAll : List String → String
  | [] => ""
  | s :: rest => s ++ joinAll rest

/-- generateAIResponse (src/index.js lines 146-197), as the pair
(messages written to the socket, return value or thrown error).
Streaming branch: emit the non-empty chunk contents with last = false,
then — unless the stream raised — the final marker with empty token and
last = true, returning the joined tokens. Non-streaming branch: send the
entire response at once with last = true and return it; a thrown backend
error sends nothing. -/
def generateAIResponse : Backend → List OutMsg × Except JsError String
  | Backend.streaming chunks fails =>
    let r := processChunks chunks
    if fails then (r.1, Except.error JsError.backendError)
    else (r.1 ++ [OutMsg.mk "text" "" true], Except.ok (joinAll r.2))
  | Backend.batch none => ([], Except.error JsError.backendError)
  | Backend.batch (some response) => ([OutMsg.mk "text" response true], Except.ok response)

/-- The generation completes: generateAIResponse returns instead of throwing. -/
def Backend.completes (b : Backend) : Bool :=
  match (generateAIResponse b).2 with
  | Except.ok _ => true
  | Except.error _ => false

/-- The value generateAIResponse returns when the generation completes. -/
def responseText (b : Backend) : String :=
  match (generateAIResponse b).2 with
  | Except.ok r => r
  | Except.error _ => ""

/-- An inbound WebSocket message after JSON.parse, by its type field;
other covers unrecognized type values, which no branch of the handler
matches. -/
inductive InMsg where
  | setup (callSid : String)
  | prompt (voicePrompt : String)
  | interrupt
  | other (t : String)
  deriving DecidableEq, Repr

/-- The state one message handler invocation reads and writes: the global
`sessions` Map and the connection's `ws.callSid` attribute (undefined before
the first setup). -/
structure ConnState where
  sessions : Store
  callSid : Option String
  deriving DecidableEq, Repr

/-- Fresh server and connection: empty sessions Map, ws.callSid undefined. -/
def initConn : ConnState := ConnState.mk [] none

/-- Outcome of one handler invocation: the resulting store and ws.callSid,
the messages written to the socket (also those written before a throw), and
the error that escaped the handler, if any. -/
structure HandleResult where
  sessions : Store
  callSid : Option String
  sent : List OutMsg
  err : Option JsError
  deriving DecidableEq, Repr

/-- The ws message handler (src/index.js lines 92-120).
setup: set ws.callSid and overwrite the sessions entry with a fresh
conversation holding only the system message.
prompt: read sessions.get(ws.callSid); when that is undefined (ws.callSid
unset, or no entry) the subsequent conversation.push throws a TypeError;
otherwise push the user message (an in-place mutation of the stored array),
run generateAIResponse, and on return push the assistant message; a thrown
backend error leaves the handler after the user push, with the generation's
partial output already sent.
interrupt: log only — no state change, no output.
unrecognized types: no branch matches, nothing happens. -/
def handleMessage (b : Backend) (s : ConnState) (m : InMsg) : HandleResult :=
  match m with
  | InMsg.setup sid =>
    HandleResult.mk (Store.set s.sessions sid [systemMessage]) (some sid) [] none
  | InMsg.prompt voicePrompt =>
    match s.callSid with
    | none => HandleResult.mk s.sessions s.callSid [] (some JsError.typeError)
    | some sid =>
      match Store.get s.sessions sid with
      | none => HandleResult.mk s.sessions s.callSid [] (some JsError.typeError)
      | some conversation =>
        let conv1 := conversation ++ [Message.mk Role.user voicePrompt]
        let sessions1 := Store.set s.sessions sid conv1
        let gr := generateAIResponse b
        match gr.2 with
        | Except.error e => HandleResult.mk sessions1 s.callSid gr.1 (some e)
        | Except.ok response =>
          HandleResult.mk
            (Store.set sessions1 sid (conv1 ++ [Message.mk Role.assistant response]))
            s.callSid gr.1 none
  | InMsg.interrupt => HandleResult.mk s.sessions s.callSid [] none
  | InMsg.other _ => HandleResult.mk s.sessions s.callSid [] none

/-- The ws close handler (src/index.js lines 123-126):
sessions.delete(ws.callSid); deleting the undefined key is a no-op on a
string-keyed map. -/
def handleClose (s : ConnState) : ConnState :=
  match s.callSid with
  | none => s
  | some sid => ConnState.mk (Store.delete s.sessions sid) s.callSid

/-- One event arriving on a connection, in arrival order. A prompt event
carries the backend behavior observed by the generateAIResponse call it
triggers; close is the transport-level connection close. -/
inductive Event where
  | setup (callSid : String)
  | prompt (voicePrompt : String) (backend : Backend)
  | interrupt
  | close
  deriving DecidableEq, Repr

/-- Dispatch one event to the matching handler. The Backend argument of
handleMessage is read only by the prompt branch, so non-prompt events pass
an arbitrary one. -/
def Event.run (s : ConnState) : Event → HandleResult
  | Event.setup sid => handleMessage (Backend.batch none) s (InMsg.setup sid)
  | Event.prompt p b => handleMessage b s (InMsg.prompt p)
  | Event.interrupt => handleMessage (Backend.batch none) s InMsg.interrupt
  | Event.close =>
    HandleResult.mk (handleClose s).sessions (handleClose s).callSid [] none

/-- Cumulative observation of an event sequence: final state, all messages
written to the socket in order, and the errors that escaped handler
invocations, in order. -/
structure Trace where
  state : ConnState
  sent : List OutMsg
  errs : List JsError
  deriving DecidableEq, Repr

/-- Run a sequence of events on one connection, each handler invocation
processed to completion before the next event (the sequential reference
behavior). -/
def runEvents (s : ConnState) : List Event → Trace
  | [] => Trace.mk s [] []
  | e :: rest =>
    let r := Event.run s e
    let tr := runEvents (ConnState.mk r.sessions r.callSid) rest
    Trace.mk tr.state (r.sent ++ tr.sent) (r.err.toList ++ tr.errs)

/-- The user/assistant message pairs a list of completed turns appends, in
arrival order. -/
def turnsMessages : List (String × Backend) → List Message
  | [] => []
  | t :: rest =>
    Message.mk Role.user t.1 :: Message.mk Role.assistant (responseText t.2) :: turnsMessages rest

/-! Store lemmas: the Map semantics of get, set and delete. -/

theorem Store.get_set_self (s : Store) (sid : String) (conv : List Message) :
    Store.get (Store.set s sid conv) sid = some conv := by
  induction s with
  | nil => simp [Store.set, Store.get]
  | cons kv rest ih =>
    by_cases h : kv.1 = sid
    · simp [Store.set, Store.get, h]
    · simp [Store.set, Store.get, h, ih]

theorem Store.get_set_ne (s : Store) (sid k : String) (conv : List Message)
    (h : k ≠ sid) : Store.get (Store.set s sid conv) k = Store.get s k := by
  have h2 : sid ≠ k := Ne.symm h
  induction s with
  | nil => simp [Store.set, Store.get, h2]
  | cons kv rest ih =>
    by_cases hk : kv.1 = sid
    · simp [Store.set, Store.get, hk, h2]
    · simp [Store.set, Store.get, hk, ih]

theorem Store.get_delete_self (s : Store) (sid : String) :
    Store.get (Store.delete s sid) sid = none := by
  induction s with
  | nil => simp [Store.delete, Store.get]
  | cons kv rest ih =>
    by_cases h : kv.1 = sid
    · simp [Store.delete, h, ih]
    · simp [Store.delete, Store.get, h, ih]

theorem Store.get_delete_ne (s : Store) (sid k : String) (h : k ≠ sid) :
    Store.get (Store.delete s sid) k = Store.get s k := by
  have h2 : sid ≠ k := Ne.symm h
  induction s with
  | nil => simp [Store.delete]
  | cons kv rest ih =>
    by_cases hk : kv.1 = sid
    · simp [Store.delete, Store.get, hk, h2, ih]
    · simp [Store.delete, Store.get, hk, ih]

/-! Lemmas about the streaming loop. -/

theorem processChunks_fst (chunks : List (Option String)) :
    (processChunks chunks).1 = (processChunks chunks).2.map (fun t => OutMsg.mk "text" t false) := by
  induction chunks with
  | nil => simp [processChunks]
  | cons c rest ih =>
    by_cases h : Option.getD c "" = ""
    · simp [processChunks, h, ih]
    · simp [processChunks, h, ih]

theorem processChunks_tokens_ne (chunks : List (Option String)) :
    ∀ t ∈ (processChunks chunks).2, t ≠ "" := by
  induction chunks with
  | nil => simp [processChunks]
  | cons c rest ih =>
    by_cases h : Option.getD c "" = ""
    · simpa [processChunks, h] using ih
    · intro t ht
      simp only [processChunks, h, if_neg h] at ht
      rcases List.mem_cons.mp ht with h1 | h1
      · exact h1 ▸ h
      · exact ih t h1

theorem processChunks_last_false (chunks : List (Option String)) :
    ∀ m ∈ (processChunks chunks).1, m.last = false := by
  intro m hm
  rw [processChunks_fst] at hm
  rcases List.mem_map.mp hm with ⟨t, _, rfl⟩
  rfl

theorem processChunks_token_ne (chunks : List (Option String)) :
    ∀ m ∈ (processChunks chunks).1, m.token ≠ "" := by
  intro m hm
  rw [processChunks_fst] at hm
  rcases List.mem_map.mp hm with ⟨t, ht, rfl⟩
  exact processChunks_tokens_ne chunks t ht

theorem processChunks_snd_filter (chunks : List (Option String)) :
    (processChunks chunks).2
      = (chunks.map (fun c => Option.getD c "")).filter (fun s => !(s == "")) := by
  induction chunks with
  | nil => simp [processChunks]
  | cons c rest ih =>
    by_cases h : Option.getD c "" = ""
    · simp [processChunks, h, ih, List.filter_cons]
    · simp [processChunks, h, ih, List.filter_cons]

theorem processChunks_join (chunks : List (Option String)) :
    joinAll (processChunks chunks).2 = joinAll (chunks.map (fun c => Option.getD c "")) := by
  induction chunks with
  | nil => simp [processChunks]
  | cons c rest ih =>
    by_cases h : Option.getD c "" = ""
    · simp [processChunks, h, ih, joinAll, String.empty_append]
    · simp [processChunks, h, ih, joinAll]

theorem processChunks_all_empty (chunks : List (Option String))
    (h : ∀ c ∈ chunks, Option.getD c "" = "") : processChunks chunks = ([], []) := by
  induction chunks with
  | nil => rfl
  | cons c rest ih =>
    have hc : Option.getD c "" = "" := h c (List.mem_cons_self c rest)
    have hrest := ih fun c hcm => h c (List.mem_cons_of_mem _ hcm)
    simp [processChunks, hc, hrest]

/-! Lemmas about generation outcomes and the prompt branch. -/

theorem completes_ok (b : Backend) (h : Backend.completes b = true) :
    (generateAIResponse b).2 = Except.ok (responseText b) := by
  unfold Backend.completes at h
  unfold responseText
  cases hg : (generateAIResponse b).2 with
  | ok r => rfl
  | error e => rw [hg] at h; exact absurd h (by simp)

theorem generate_error_sent_last_false (b : Backend) (e : JsError)
    (hfail : (generateAIResponse b).2 = Except.error e) :
    ∀ m ∈ (generateAIResponse b).1, m.last = false := by
  cases b with
  | streaming chunks fails =>
    cases fails with
    | true =>
      intro m hm
      simp only [generateAIResponse] at hm
      exact processChunks_last_false chunks m (by simpa using hm)
    | false => simp [generateAIResponse] at hfail
  | batch result =>
    cases result with
    | none => intro m hm; simp [generateAIResponse] at hm
    | some r => simp [generateAIResponse] at hfail

theorem handleMessage_prompt_ok (b : Backend) (s : ConnState) (sid p rt : String)
    (conv : List Message) (hcs : s.callSid = some sid)
    (hget : Store.get s.sessions sid = some conv)
    (hok : (generateAIResponse b).2 = Except.ok rt) :
    handleMessage b s (InMsg.prompt p)
      = HandleResult.mk
          (Store.set (Store.set s.sessions sid (conv ++ [Message.mk Role.user p])) sid
            ((conv ++ [Message.mk Role.user p]) ++ [Message.mk Role.assistant rt]))
          s.callSid (generateAIResponse b).1 none := by
  simp [handleMessage, hcs, hget, hok]

theorem handleMessage_prompt_err (b : Backend) (s : ConnState) (sid p : String)
    (e : JsError) (conv : List Message) (hcs : s.callSid = some sid)
    (hget : Store.get s.sessions sid = some conv)
    (herr : (generateAIResponse b).2 = Except.error e) :
    handleMessage b s (InMsg.prompt p)
      = HandleResult.mk (Store.set s.sessions sid (conv ++ [Message.mk Role.user p]))
          s.callSid (generateAIResponse b).1 (some e) := by
  simp [handleMessage, hcs, hget, herr]

theorem turnsMessages_length (turns : List (String × Backend)) :
    (turnsMessages turns).length = 2 * turns.length := by
  induction turns with
  | nil => rfl
  | cons t rest ih => simp [turnsMessages, ih]; ring

theorem runEvents_prompts_get (sid : String) (turns : List (String × Backend))
    (sess : Store) (hist : List Message) (hget : Store.get sess sid = some hist)
    (hok : ∀ t ∈ turns, Backend.completes t.2 = true) :
    Store.get (runEvents (ConnState.mk sess (some sid))
        (turns.map (fun t => Event.prompt t.1 t.2))).state.sessions sid
      = some (hist ++ turnsMessages turns) ∧
    (runEvents (ConnState.mk sess (some sid))
        (turns.map (fun t => Event.prompt t.1 t.2))).state.callSid = some sid := by
  induction turns generalizing sess hist with
  | nil => simp [runEvents, turnsMessages, hget]
  | cons t rest ih =>
    have hok2 : (generateAIResponse t.2).2 = Except.ok (responseText t.2) :=
      completes_ok t.2 (hok t (List.mem_cons_self t rest))
    have hrest : ∀ u ∈ rest, Backend.completes u.2 = true :=
      fun u hu => hok u (List.mem_cons_of_mem t hu)
    have hmsg := handleMessage_prompt_ok t.2 (ConnState.mk sess (some sid)) sid t.1
      (responseText t.2) hist rfl hget hok2
    have ih2 := ih
      (Store.set (Store.set sess sid (hist ++ [Message.mk Role.user t.1])) sid
        ((hist ++ [Message.mk Role.user t.1]) ++ [Message.mk Role.assistant (responseText t.2)]))
      ((hist ++ [Message.mk Role.user t.1]) ++ [Message.mk Role.assistant (responseText t.2)])
      (Store.get_set_self _ _ _) hrest
    simp only [List.map_cons, runEvents, Event.run, hmsg]
    constructor
    · rw [ih2.1]
      simp [turnsMessages]
    · exact ih2.2

/-! Claim theorems. -/

/-- C1 (amended): a prompt event whose connection call identifier has no
session in the store leaves the store unmutated and sends nothing, but the
handler throws a TypeError (conversation.push on undefined) that escapes the
async handler — the event is not dropped gracefully and no NotFound is
logged. -/
theorem c1_prompt_unknown_throws (b : Backend) (s : ConnState) (p : String)
    (h : Option.bind s.callSid (Store.get s.sessions) = none) :
    handleMessage b s (InMsg.prompt p)
      = HandleResult.mk s.sessions s.callSid [] (some JsError.typeError) := by
  cases hcs : s.callSid with
  | none => simp [handleMessage, hcs]
  | some sid =>
    rw [hcs] at h
    replace h : Store.get s.sessions sid = none := by simpa using h
    simp [handleMessage, hcs, h]

/-- Witness: prompt on a connection bound to the unknown identifier CA9. -/
theorem c1_prompt_unknown_throws_w :
    Option.bind (ConnState.mk [] (some "CA9")).callSid
        (Store.get (ConnState.mk [] (some "CA9")).sessions) = none ∧
    handleMessage (Backend.batch (some "hi")) (ConnState.mk [] (some "CA9")) (InMsg.prompt "hi")
      = HandleResult.mk [] (some "CA9") [] (some JsError.typeError) :=
  ⟨rfl, c1_prompt_unknown_throws (Backend.batch (some "hi")) (ConnState.mk [] (some "CA9"))
    "hi" rfl⟩

/-- C1 counterexample: for the unknown call identifier CA9 (its session
deleted by another connection's close) the prompt handler raises instead of
completing, so the claimed log-and-drop without a crash does not hold. -/
theorem c1_counterexample :
    (handleMessage (Backend.batch (some "hi"))
        (ConnState.mk (Store.delete (Store.set [] "CA9" [systemMessage]) "CA9") (some "CA9"))
        (InMsg.prompt "hi")).err ≠ none := by decide

/-- C2: after a setup and N utterances whose generations all complete, the
stored history is the system message followed by the user/assistant pairs in
arrival order — exactly 1 + 2N messages. -/
theorem c2_history_shape (sid : String) (turns : List (String × Backend))
    (hok : ∀ t ∈ turns, Backend.completes t.2 = true) :
    Store.get (runEvents initConn
        (Event.setup sid :: turns.map (fun t => Event.prompt t.1 t.2))).state.sessions sid
      = some (systemMessage :: turnsMessages turns) ∧
    (systemMessage :: turnsMessages turns).length = 1 + 2 * turns.length := by
  constructor
  · have h := runEvents_prompts_get sid turns (Store.set [] sid [systemMessage]) [systemMessage]
      (Store.get_set_self _ _ _) hok
    simpa [runEvents, Event.run, handleMessage, initConn] using h.1
  · simp only [List.length_cons, turnsMessages_length]
    omega

/-- Witness: one completed batch turn on CA1. -/
theorem c2_history_shape_w :
    (∀ t ∈ ([("hello", Backend.batch (some "hi"))] : List (String × Backend)),
        Backend.completes t.2 = true) ∧
    (Store.get (runEvents initConn
        (Event.setup "CA1" :: ([("hello", Backend.batch (some "hi"))] :
          List (String × Backend)).map (fun t => Event.prompt t.1 t.2))).state.sessions "CA1"
      = some (systemMessage :: turnsMessages [("hello", Backend.batch (some "hi"))]) ∧
    (systemMessage :: turnsMessages [("hello", Backend.batch (some "hi"))]).length
      = 1 + 2 * ([("hello", Backend.batch (some "hi"))] : List (String × Backend)).length) :=
  ⟨by decide, c2_history_shape "CA1" [("hello", Backend.batch (some "hi"))] (by decide)⟩

/-- C3: in streaming mode, for a generation that completes, the assistant
message appended to the history is the exact in-order concatenation of the
non-final fragments emitted on the socket, every non-final fragment is
non-empty, and that concatenation equals the concatenation of all chunk
contents — the backend's full response text. -/
theorem c3_streaming_concat (sid p : String) (chunks : List (Option String)) :
    Store.get (runEvents initConn
        [Event.setup sid, Event.prompt p (Backend.streaming chunks false)]).state.sessions sid
      = some [systemMessage, Message.mk Role.user p,
          Message.mk Role.assistant
            (joinAll ((((runEvents initConn
              [Event.setup sid, Event.prompt p (Backend.streaming chunks false)]).sent).filter
                (fun m => !m.last)).map OutMsg.token))] ∧
    (∀ m ∈ (runEvents initConn
        [Event.setup sid, Event.prompt p (Backend.streaming chunks false)]).sent,
        m.last = false → m.token ≠ "") ∧
    joinAll ((((runEvents initConn
        [Event.setup sid, Event.prompt p (Backend.streaming chunks false)]).sent).filter
          (fun m => !m.last)).map OutMsg.token)
      = joinAll (chunks.map (fun c => Option.getD c "")) := by
  have hsent : (runEvents initConn
      [Event.setup sid, Event.prompt p (Backend.streaming chunks false)]).sent
      = (processChunks chunks).1 ++ [OutMsg.mk "text" "" true] := by
    simp [runEvents, Event.run, handleMessage, generateAIResponse, initConn, Store.get_set_self]
  have hfilter : (((processChunks chunks).1 ++ [OutMsg.mk "text" "" true]).filter
      (fun m => !m.last)) = (processChunks chunks).1 := by
    rw [List.filter_append]
    have h1 : (processChunks chunks).1.filter (fun m => !m.last) = (processChunks chunks).1 :=
      List.filter_eq_self.mpr (fun m hm => by simp [processChunks_last_false chunks m hm])
    simp [h1]
  have htok : (processChunks chunks).1.map OutMsg.token = (processChunks chunks).2 := by
    rw [processChunks_fst, List.map_map]
    have hcomp : (OutMsg.token ∘ fun t => OutMsg.mk "text" t false) = fun t : String => t := rfl
    rw [hcomp]
    simp
  refine ⟨?_, ?_, ?_⟩
  · rw [hsent, hfilter, htok]
    simp [runEvents, Event.run, handleMessage, generateAIResponse, initConn, Store.get_set_self]
  · intro m hm hlast
    rw [hsent] at hm
    rcases List.mem_append.mp hm with h1 | h1
    · exact processChunks_token_ne chunks m h1
    · rcases List.mem_singleton.mp h1 with rfl
      simp at hlast
  · rw [hsent, hfilter, htok, processChunks_join]

/-- C4: in streaming mode, for a generation that completes, the emitted
messages are the non-empty chunk contents in backend order, each with
last = false, followed by exactly one end-of-turn marker — the empty-token
last = true message — as the final message. -/
theorem c4_streaming_order (chunks : List (Option String)) :
    (generateAIResponse (Backend.streaming chunks false)).1
      = (processChunks chunks).2.map (fun t => OutMsg.mk "text" t false)
          ++ [OutMsg.mk "text" "" true] ∧
    (processChunks chunks).2
      = (chunks.map (fun c => Option.getD c "")).filter (fun s => !(s == "")) ∧
    (∀ m ∈ ((generateAIResponse (Backend.streaming chunks false)).1).dropLast,
        m.last = false ∧ m.token ≠ "") ∧
    (((generateAIResponse (Backend.streaming chunks false)).1).filter
        (fun m => m.last)).length = 1 ∧
    ((generateAIResponse (Backend.streaming chunks false)).1).getLast?
      = some (OutMsg.mk "text" "" true) := by
  have hout : (generateAIResponse (Backend.streaming chunks false)).1
      = (processChunks chunks).1 ++ [OutMsg.mk "text" "" true] := by
    simp [generateAIResponse]
  refine ⟨?_, processChunks_snd_filter chunks, ?_, ?_, ?_⟩
  · rw [hout, processChunks_fst]
  · intro m hm
    rw [hout, List.dropLast_concat] at hm
    exact ⟨processChunks_last_false chunks m hm, processChunks_token_ne chunks m hm⟩
  · rw [hout, List.filter_append]
    have h1 : (processChunks chunks).1.filter (fun m => m.last) = [] :=
      List.filter_eq_nil_iff.mpr
        (fun m hm => by simp [processChunks_last_false chunks m hm])
    simp [h1]
  · rw [hout]
    exact List.getLast?_concat _

/-- C5 (amended): in batch mode a completed turn sends exactly one outbound
message — the full response text with last = true; no separate empty-token
terminal marker follows it. -/
theorem c5_batch_single_message (sid p r : String) :
    (runEvents initConn [Event.setup sid, Event.prompt p (Backend.batch (some r))]).sent
      = [OutMsg.mk "text" r true] := by
  simp [runEvents, Event.run, handleMessage, generateAIResponse, initConn, Store.get_set_self]

/-- C5 counterexample: the batch scenario sends one message, not the claimed
two, and no message carries an empty token with last = true. -/
theorem c5_counterexample :
    ((runEvents initConn [Event.setup "CA1",
        Event.prompt "hello" (Backend.batch (some "hi there"))]).sent).length ≠ 2 ∧
    ∀ m ∈ (runEvents initConn [Event.setup "CA1",
        Event.prompt "hello" (Backend.batch (some "hi there"))]).sent,
      ¬ (m.token = "" ∧ m.last = true) := by decide

/-- C6 (amended): when the backend call fails, no assistant message is
appended (the session history ends with the user message), the failure does
not touch other sessions' entries, and the error escapes the handler; but
contrary to the claim no terminal marker is emitted — every message sent
before the failure has last = false, and batch mode sends nothing. -/
theorem c6_backend_failure (b : Backend) (s : ConnState) (sid p : String)
    (conv : List Message) (hcs : s.callSid = some sid)
    (hget : Store.get s.sessions sid = some conv)
    (hfail : (generateAIResponse b).2 = Except.error JsError.backendError) :
    Store.get (handleMessage b s (InMsg.prompt p)).sessions sid
        = some (conv ++ [Message.mk Role.user p]) ∧
    (∀ m ∈ (handleMessage b s (InMsg.prompt p)).sent, m.last = false) ∧
    (handleMessage b s (InMsg.prompt p)).err = some JsError.backendError ∧
    (∀ k, k ≠ sid → Store.get (handleMessage b s (InMsg.prompt p)).sessions k
        = Store.get s.sessions k) := by
  have hmsg := handleMessage_prompt_err b s sid p JsError.backendError conv hcs hget hfail
  rw [hmsg]
  exact ⟨Store.get_set_self _ _ _,
    fun m hm => generate_error_sent_last_false b JsError.backendError hfail m hm,
    rfl,
    fun k hk => Store.get_set_ne _ _ _ _ hk⟩

/-- Witness: batch-mode backend failure on the active session CA1. -/
theorem c6_backend_failure_w :
    ((ConnState.mk [("CA1", [systemMessage])] (some "CA1")).callSid = some "CA1" ∧
     Store.get (ConnState.mk [("CA1", [systemMessage])] (some "CA1")).sessions "CA1"
       = some [systemMessage] ∧
     (generateAIResponse (Backend.batch none)).2 = Except.error JsError.backendError) ∧
    (Store.get (handleMessage (Backend.batch none)
        (ConnState.mk [("CA1", [systemMessage])] (some "CA1"))
        (InMsg.prompt "hello")).sessions "CA1"
        = some ([systemMessage] ++ [Message.mk Role.user "hello"]) ∧
     (∀ m ∈ (handleMessage (Backend.batch none)
        (ConnState.mk [("CA1", [systemMessage])] (some "CA1")) (InMsg.prompt "hello")).sent,
        m.last = false) ∧
     (handleMessage (Backend.batch none)
        (ConnState.mk [("CA1", [systemMessage])] (some "CA1")) (InMsg.prompt "hello")).err
        = some JsError.backendError ∧
     (∀ k, k ≠ "CA1" → Store.get (handleMessage (Backend.batch none)
        (ConnState.mk [("CA1", [systemMessage])] (some "CA1"))
        (InMsg.prompt "hello")).sessions k
        = Store.get (ConnState.mk [("CA1", [systemMessage])] (some "CA1")).sessions k)) :=
  ⟨⟨rfl, rfl, rfl⟩, c6_backend_failure (Backend.batch none)
    (ConnState.mk [("CA1", [systemMessage])] (some "CA1")) "CA1" "hello" [systemMessage]
    rfl rfl rfl⟩

/-- C6 counterexample: on a batch-mode backend failure nothing at all is
written to the socket — no terminal marker reaches the transport, contrary
to the claim. -/
theorem c6_counterexample :
    (handleMessage (Backend.batch none)
        (ConnState.mk [("CA1", [systemMessage])] (some "CA1"))
        (InMsg.prompt "hello")).sent = [] ∧
    (handleMessage (Backend.batch none)
        (ConnState.mk [("CA1", [systemMessage])] (some "CA1"))
        (InMsg.prompt "hello")).err = some JsError.backendError :=
  ⟨rfl, rfl⟩

/-- C7 (amended): a setup for an already-active call identifier does not
fail with DuplicateSession; it succeeds, silently overwriting the session
with a fresh history holding only the system message and rebinding
ws.callSid. -/
theorem c7_setup_overwrites (b : Backend) (s : ConnState) (sid : String)
    (conv : List Message) (hget : Store.get s.sessions sid = some conv) :
    (handleMessage b s (InMsg.setup sid)).err = none ∧
    Store.get (handleMessage b s (InMsg.setup sid)).sessions sid = some [systemMessage] ∧
    (handleMessage b s (InMsg.setup sid)).callSid = some sid ∧
    (handleMessage b s (InMsg.setup sid)).sent = [] := by
  refine ⟨rfl, ?_, rfl, rfl⟩
  simp [handleMessage, Store.get_set_self]

/-- Witness: setup of CA1 while CA1 already holds a conversation. -/
theorem c7_setup_overwrites_w :
    Store.get (ConnState.mk [("CA1", [systemMessage, Message.mk Role.user "old"])]
        (some "CA1")).sessions "CA1"
      = some [systemMessage, Message.mk Role.user "old"] ∧
    ((handleMessage (Backend.batch none)
        (ConnState.mk [("CA1", [systemMessage, Message.mk Role.user "old"])] (some "CA1"))
        (InMsg.setup "CA1")).err = none ∧
     Store.get (handleMessage (Backend.batch none)
        (ConnState.mk [("CA1", [systemMessage, Message.mk Role.user "old"])] (some "CA1"))
        (InMsg.setup "CA1")).sessions "CA1" = some [systemMessage] ∧
     (handleMessage (Backend.batch none)
        (ConnState.mk [("CA1", [systemMessage, Message.mk Role.user "old"])] (some "CA1"))
        (InMsg.setup "CA1")).callSid = some "CA1" ∧
     (handleMessage (Backend.batch none)
        (ConnState.mk [("CA1", [systemMessage, Message.mk Role.user "old"])] (some "CA1"))
        (InMsg.setup "CA1")).sent = []) :=
  ⟨rfl, c7_setup_overwrites (Backend.batch none)
    (ConnState.mk [("CA1", [systemMessage, Message.mk Role.user "old"])] (some "CA1"))
    "CA1" [systemMessage, Message.mk Role.user "old"] rfl⟩

/-- C7 counterexample: after setup CA1 and one completed turn, a second
setup for CA1 raises no error and resets the stored history to the lone
system message — the existing session is mutated, not left unchanged. -/
theorem c7_counterexample :
    Store.get (runEvents initConn [Event.setup "CA1",
        Event.prompt "hello" (Backend.batch (some "hi")),
        Event.setup "CA1"]).state.sessions "CA1"
      = some [systemMessage] ∧
    Store.get (runEvents initConn [Event.setup "CA1",
        Event.prompt "hello" (Backend.batch (some "hi"))]).state.sessions "CA1"
      = some [systemMessage, Message.mk Role.user "hello", Message.mk Role.assistant "hi"] ∧
    (runEvents initConn [Event.setup "CA1",
        Event.prompt "hello" (Backend.batch (some "hi")),
        Event.setup "CA1"]).errs = [] := by
  refine ⟨?_, ?_, ?_⟩ <;> rfl

/-- C8: an interrupt event is a no-op in the reference behavior — the store
and ws.callSid are unchanged, nothing is sent, no error is raised; in
particular this holds when no generation is in flight, since the handler
branch only logs, unconditionally. -/
theorem c8_interrupt_noop (b : Backend) (s : ConnState) :
    handleMessage b s InMsg.interrupt = HandleResult.mk s.sessions s.callSid [] none := rfl

/-- C9: a second setup on the same connection rebinds ws.callSid — the
following prompt appends only to the new call identifier's session, the
close deletes only the new one, and the session created by the first setup
survives the close with its history untouched. -/
theorem c9_second_setup_rebinds (sid1 sid2 p r : String) (h : sid1 ≠ sid2) :
    Store.get (runEvents initConn [Event.setup sid1, Event.setup sid2,
        Event.prompt p (Backend.batch (some r)), Event.close]).state.sessions sid1
      = some [systemMessage] ∧
    Store.get (runEvents initConn [Event.setup sid1, Event.setup sid2,
        Event.prompt p (Backend.batch (some r)), Event.close]).state.sessions sid2
      = none ∧
    Store.get (runEvents initConn [Event.setup sid1, Event.setup sid2,
        Event.prompt p (Backend.batch (some r))]).state.sessions sid2
      = some [systemMessage, Message.mk Role.user p, Message.mk Role.assistant r] ∧
    Store.get (runEvents initConn [Event.setup sid1, Event.setup sid2,
        Event.prompt p (Backend.batch (some r))]).state.sessions sid1
      = some [systemMessage] := by
  have h2 : sid2 ≠ sid1 := Ne.symm h
  refine ⟨?_, ?_, ?_, ?_⟩ <;>
    simp [runEvents, Event.run, handleMessage, handleClose, generateAIResponse, initConn,
      Store.get_set_self, Store.get_set_ne, Store.get_delete_self, Store.get_delete_ne, h, h2]

/-- Witness: setups for CA1 then CA2, a turn, and the connection close. -/
theorem c9_second_setup_rebinds_w :
    ("CA1" : String) ≠ "CA2" ∧
    (Store.get (runEvents initConn [Event.setup "CA1", Event.setup "CA2",
        Event.prompt "hi" (Backend.batch (some "yo")), Event.close]).state.sessions "CA1"
      = some [systemMessage] ∧
    Store.get (runEvents initConn [Event.setup "CA1", Event.setup "CA2",
        Event.prompt "hi" (Backend.batch (some "yo")), Event.close]).state.sessions "CA2"
      = none ∧
    Store.get (runEvents initConn [Event.setup "CA1", Event.setup "CA2",
        Event.prompt "hi" (Backend.batch (some "yo"))]).state.sessions "CA2"
      = some [systemMessage, Message.mk Role.user "hi", Message.mk Role.assistant "yo"] ∧
    Store.get (runEvents initConn [Event.setup "CA1", Event.setup "CA2",
        Event.prompt "hi" (Backend.batch (some "yo"))]).state.sessions "CA1"
      = some [systemMessage]) :=
  ⟨by decide, c9_second_setup_rebinds "CA1" "CA2" "hi" "yo" (by decide)⟩

/-- C10: a streaming generation whose chunks carry no non-empty content
still completes — only the final marker is sent, the empty string is
returned and stored as the assistant message, and no error is raised. -/
theorem c10_empty_stream (sid p : String) (chunks : List (Option String))
    (h : ∀ c ∈ chunks, Option.getD c "" = "") :
    (runEvents initConn [Event.setup sid,
        Event.prompt p (Backend.streaming chunks false)]).sent
      = [OutMsg.mk "text" "" true] ∧
    Store.get (runEvents initConn [Event.setup sid,
        Event.prompt p (Backend.streaming chunks false)]).state.sessions sid
      = some [systemMessage, Message.mk Role.user p, Message.mk Role.assistant ""] ∧
    (runEvents initConn [Event.setup sid,
        Event.prompt p (Backend.streaming chunks false)]).errs = [] := by
  have hpc := processChunks_all_empty chunks h
  refine ⟨?_, ?_, ?_⟩ <;>
    simp [runEvents, Event.run, handleMessage, generateAIResponse, initConn,
      Store.get_set_self, hpc, joinAll]

/-- Witness: a stream of one contentless chunk and one empty-content chunk. -/
theorem c10_empty_stream_w :
    (∀ c ∈ ([none, some ""] : List (Option String)), Option.getD c "" = "") ∧
    ((runEvents initConn [Event.setup "CA3",
        Event.prompt "hi" (Backend.streaming [none, some ""] false)]).sent
      = [OutMsg.mk "text" "" true] ∧
    Store.get (runEvents initConn [Event.setup "CA3",
        Event.prompt "hi" (Backend.streaming [none, some ""] false)]).state.sessions "CA3"
      = some [systemMessage, Message.mk Role.user "hi", Message.mk Role.assistant ""] ∧
    (runEvents initConn [Event.setup "CA3",
        Event.prompt "hi" (Backend.streaming [none, some ""] false)]).errs = []) :=
  ⟨by decide, c10_empty_stream "CA3" "hi" [none, some ""] (by decide)⟩

end ConversationRelay
